import Mathlib

/-!
# Verification of the interactive Vega-Altair notebook

A shallow embedding of `src/interactive-vega-altair-solution.py`, a jupytext
notebook that wires ipywidgets controls to Altair chart specifications, and
proofs of the frozen claims about it.

The notebook's own code builds declarative chart descriptions (records of
encodings, transforms and selection parameters), declares widget control
descriptors with initial values, and registers pure callbacks.  We embed the
chart description as a record, the widget descriptors as an inductive type,
and each notebook callback as a Lean function translated line by line from
the Python source.  The behaviour of the external `interact` binder
(ipywidgets) is modelled from the spec where a claim is about it.
-/

namespace VegaAltairNotebook

/-- A dataframe row: a valuation of column names.  The notebook's filter
transforms only compare column values numerically, so values are integers. -/
def Row : Type := String → Int

/-- A tabular dataset: named columns and a list of rows.  Datasets are loaded
from the external `vega_datasets` catalog and never modified. -/
structure DataFrame where
  columns : List String
  rows : List Row

/-- Altair mark types used by the notebook (`mark_bar`, `mark_point`,
`mark_rule`). -/
inductive Mark where
  | bar
  | point
  | rule
deriving DecidableEq, Repr

/-- An interval selection as produced by `alt.selection_interval`: the list of
encoding channels that participate in the brush. -/
structure Selection where
  encodings : List String
deriving DecidableEq, Repr

/-- An encoding channel value, as the notebook constructs them:
a plain field shorthand (`x='sepalLength'`, `y='count()'`),
a field with a color scheme (`alt.Color(..., scheme=...)`),
a conditional literal value (`alt.condition(brush, alt.value a, alt.value b)`),
or a plain literal value. -/
inductive Encoding where
  | field (name : String)
  | fieldScheme (name : String) (scheme : String)
  | condValue (sel : Selection) (ifSel : Int) (ifNot : Int)
  | value (v : Int)
deriving DecidableEq, Repr

/-- Does an encoding reference a selection (so that its rendering depends on
what is brushed)?  Only `alt.condition` does. -/
def Encoding.mentionsSelection : Encoding → Bool
  | .condValue _ _ _ => true
  | _ => false

/-- The literal size rendered for a mark, given whether the mark lies inside
the selection: `alt.condition(brush, alt.value a, alt.value b)` renders `a`
for selected marks and `b` for unselected ones. -/
def Encoding.renderedValue : Encoding → Bool → Option Int
  | .condValue _ a b, selected => some (if selected then a else b)
  | .value v, _ => some v
  | _, _ => none

/-- A filter predicate over `datum`, as composed in the notebook:
`datum[col] >= v`, `datum[col] <= v`, and conjunction `&`. -/
inductive Pred where
  | ge (col : String) (v : Int)
  | le (col : String) (v : Int)
  | and (p : Pred) (q : Pred)
deriving DecidableEq, Repr

/-- Evaluating a filter predicate on a row, following Vega-Lite's semantics
of `transform_filter`. -/
def Pred.eval : Pred → Row → Bool
  | .ge col v, row => decide (v ≤ row col)
  | .le col v, row => decide (row col ≤ v)
  | .and p q, row => p.eval row && q.eval row

/-- A chart title (`alt.Title`), with an optional subtitle. -/
structure Title where
  text : String
  subtitle : Option String := none
deriving DecidableEq, Repr

/-- A declarative Altair chart description: the dataset, title, mark, the
encoding channels set by `encode`, the filter transforms, and the selection
parameters added by `add_params`. -/
structure Chart where
  data : DataFrame
  title : Option Title := none
  mark : Option Mark := none
  x : Option Encoding := none
  y : Option Encoding := none
  color : Option Encoding := none
  size : Option Encoding := none
  tooltip : List Encoding := []
  transforms : List Pred := []
  params : List Selection := []

/-- The rows of the chart's dataset that survive its filter transforms,
applied in order. -/
def Chart.keptRows (c : Chart) : List Row :=
  c.transforms.foldl (fun rs p => rs.filter p.eval) c.data.rows

/-- A widget control descriptor, one of the four kinds the notebook
constructs: free text (`widgets.Text`), integer slider
(`widgets.IntSlider`), integer-pair range slider (`widgets.IntRangeSlider`)
and single choice from a list (`widgets.Dropdown`).  Each carries its
declared initial value and domain. -/
inductive Control where
  | text (value : String)
  | intSlider (value : Int) (min : Int) (max : Int) (step : Int)
  | intRangeSlider (value : Int × Int) (min : Int) (max : Int) (step : Int)
  | dropdown (options : List String) (value : String)
deriving DecidableEq, Repr

/-- The control's initial value lies inside its declared domain: sliders
between min and max, a range slider's ordered pair within [min, max], a
dropdown's value among its options; free text is unconstrained. -/
def Control.inDomain : Control → Bool
  | .text _ => true
  | .intSlider v mn mx _ => decide (mn ≤ v) && decide (v ≤ mx)
  | .intRangeSlider v mn mx _ =>
      decide (mn ≤ v.1) && decide (v.1 ≤ v.2) && decide (v.2 ≤ mx)
  | .dropdown opts v => decide (v ∈ opts)

/-! ## Library configuration (setup cells)

`alt.data_transformers.enable('vegafusion')` and `alt.renderers.enable('png')`
are the only library-level settings the notebook activates. -/

/-- The mutable Altair library configuration: the active data transformer and
the active renderer. -/
structure AltairConfig where
  dataTransformer : String
  renderer : String
deriving DecidableEq, Repr

/-- A library-level setting activation, as issued by the setup cells. -/
inductive LibSetting where
  | enableDataTransformer (name : String)
  | enableRenderer (name : String)
deriving DecidableEq, Repr

/-- The exact sequence of library-setting activations the notebook performs:
`alt.data_transformers.enable('vegafusion')` then
`alt.renderers.enable('png')`. -/
def notebookSettings : List LibSetting :=
  [LibSetting.enableDataTransformer "vegafusion", LibSetting.enableRenderer "png"]

/-- Applying one setting activation to the library configuration. -/
def applySetting (c : AltairConfig) : LibSetting → AltairConfig
  | .enableDataTransformer n => { c with dataTransformer := n }
  | .enableRenderer n => { c with renderer := n }

/-- Applying a sequence of setting activations in order. -/
def applySettings (c : AltairConfig) (ss : List LibSetting) : AltairConfig :=
  ss.foldl applySetting c

/-- The environment variables the notebook reads: none.  No cell of the
source accesses `os.environ` or any equivalent. -/
def notebookEnvReads : List String := []

/-- The configuration files of its own the notebook reads: none.  No cell of
the source opens a file. -/
def notebookConfigReads : List String := []

/-! ## Text callbacks (`print10X`, `print10XPair`, `times10`)

Each Python callback prints lines; we embed it as the list of lines printed.
`' '.join(lst)` is embedded as `joinSpace`. -/

/-- Python's `' '.join`: concatenate the strings separated by single
spaces. -/
def joinSpace : List String → String
  | [] => ""
  | [s] => s
  | s :: rest => s ++ " " ++ joinSpace rest

/-- `print10X(str1)` (the `@interact`-decorated definition): for `i` in
`range(10)`, print `' '.join([str1, str(i)])`.  Embedded as the list of the
ten printed lines. -/
def print10X (str1 : String) : List String :=
  (List.range 10).map (fun i => joinSpace [str1, toString i])

/-- `print10XPair(str1, str2)`: for `i` in `range(10)`, print
`' '.join([str1, str2, str(i)])`. -/
def print10XPair (str1 str2 : String) : List String :=
  (List.range 10).map (fun i => joinSpace [str1, str2, toString i])

/-- `times10(x)`: print `x * 10`.  Embedded as the single printed line. -/
def times10 (x : Int) : List String :=
  [toString (x * 10)]

/-! ## Birdstrikes bar charts -/

/-- Modelled from the spec: the column list of the external birdstrikes
dataset fetched by `data.birdstrikes()` from the `vega_datasets` remote
catalog.  The dataset itself is not part of the repository; only its column
names matter to the claims (the dropdown options and the membership of
`'When__Phase_of_flight'` and `'Cost__Total_$'`). -/
def birdStrikesColumns : List String :=
  ["Airport__Name", "Aircraft__Make_Model", "Effect__Amount_of_damage",
   "Flight_Date", "Aircraft__Airline_Operator", "Origin_State",
   "When__Phase_of_flight", "Wildlife__Size", "Wildlife__Species",
   "When__Time_of_day", "Cost__Other", "Cost__Repair", "Cost__Total_$",
   "Speed_IAS_in_knots"]

/-- `costCol = 'Cost__Total_$'`. -/
def costCol : String := "Cost__Total_$"

/-- `pandas.Series.min` over the cost column, embedded on the list of the
column's values. -/
def seriesMin : List Int → Int
  | [] => 0
  | c :: cs => cs.foldl min c

/-- `pandas.Series.max` over the cost column, embedded on the list of the
column's values. -/
def seriesMax : List Int → Int
  | [] => 0
  | c :: cs => cs.foldl max c

/-- `math.ceil` of an integer division (the notebook divides integer dollar
amounts by 1000): `⌈a / b⌉ = -⌊-a / b⌋`. -/
def ceilDiv (a b : Int) : Int := -(Int.fdiv (-a) b)

/-- `costRangeInData = [math.floor(min/1000), math.ceil(max/1000)]`, the
dataset's cost range in thousands, from the values of the cost column.
`Int.fdiv` is floor division, matching `math.floor` of the exact quotient. -/
def costRangeInData (costs : List Int) : Int × Int :=
  (Int.fdiv (seriesMin costs) 1000, ceilDiv (seriesMax costs) 1000)

/-- The costs of a dataframe: the values of its `Cost__Total_$` column. -/
def DataFrame.costs (df : DataFrame) : List Int :=
  df.rows.map (fun r => r costCol)

/-- `barChart(xcol)`: a bar chart of `birdStrikesDF` titled
`'Bird Strikes Dataset'` with `x=xcol, y='count()'`.  The closed-over global
`birdStrikesDF` is passed explicitly. -/
def barChart (birdStrikesDF : DataFrame) (xcol : String) : Chart :=
  { data := birdStrikesDF,
    title := some { text := "Bird Strikes Dataset" },
    mark := some Mark.bar,
    x := some (Encoding.field xcol),
    y := some (Encoding.field "count()") }

/-- `barChartRanges(xcol, costRange)`: the bar chart of `barChart` with a
subtitle showing the range and a filter transform
`(datum[costCol] >= costRange[0]*1000) & (datum[costCol] <= costRange[1]*1000)`. -/
def barChartRanges (birdStrikesDF : DataFrame) (xcol : String)
    (costRange : Int × Int) : Chart :=
  { data := birdStrikesDF,
    title := some
      { text := "Bird Strikes Dataset",
        subtitle := some ("With costs $" ++ toString costRange.1 ++ "–" ++
          toString costRange.2 ++ "k") },
    mark := some Mark.bar,
    x := some (Encoding.field xcol),
    y := some (Encoding.field "count()"),
    transforms :=
      [Pred.and (Pred.ge costCol (costRange.1 * 1000))
                (Pred.le costCol (costRange.2 * 1000))] }

/-! ## Iris scatterplots -/

/-- `irisScatter()` (second definition, with color and tooltip): a point
chart of `irisDF` with `x='sepalLength', y='petalLength'`, a purple color
scale on `sepalWidth` and a four-field tooltip. -/
def irisScatter (irisDF : DataFrame) : Chart :=
  { data := irisDF,
    mark := some Mark.point,
    x := some (Encoding.field "sepalLength"),
    y := some (Encoding.field "petalLength"),
    color := some (Encoding.fieldScheme "sepalWidth" "purples"),
    tooltip := [Encoding.field "sepalLength", Encoding.field "petalLength",
                Encoding.field "sepalWidth", Encoding.field "petalWidth"] }

/-- `irisBrushScatter()`: `irisScatter` plus
`brush = alt.selection_interval(encodings=['x','y'])`, a conditional size
`alt.condition(brush, alt.value(50), alt.value(1))` and `add_params(brush)`. -/
def irisBrushScatter (irisDF : DataFrame) : Chart :=
  let brush : Selection := { encodings := ["x", "y"] }
  { data := irisDF,
    mark := some Mark.point,
    x := some (Encoding.field "sepalLength"),
    y := some (Encoding.field "petalLength"),
    color := some (Encoding.fieldScheme "sepalWidth" "purples"),
    size := some (Encoding.condValue brush 50 1),
    tooltip := [Encoding.field "sepalLength", Encoding.field "petalLength",
                Encoding.field "sepalWidth", Encoding.field "petalWidth"],
    params := [brush] }

/-! ## The control descriptors constructed in the notebook -/

/-- `widgets.Text(value='Hello')` bound to `print10X`'s `str1`. -/
def str1Text : Control := Control.text "Hello"

/-- `widgets.Text(value='Hello World!')` of the non-decorator example. -/
def textWidget : Control := Control.text "Hello World!"

/-- `widgets.Text(value='World!')` bound to `print10XPair`'s `str2`. -/
def str2Text : Control := Control.text "World!"

/-- `widgets.IntSlider(value=7, min=0, max=10, step=1)` bound to
`times10`'s `x`. -/
def xSlider : Control := Control.intSlider 7 0 10 1

/-- `widgets.Dropdown(options=list(birdStrikesDF.columns),
value='When__Phase_of_flight')` bound to `barChart`'s `xcol` (and again to
`barChartRanges`'s `xcol`). -/
def xcolDropdown (birdStrikesDF : DataFrame) : Control :=
  Control.dropdown birdStrikesDF.columns "When__Phase_of_flight"

/-- `widgets.IntRangeSlider(value=costRangeInData, min=costRangeInData[0],
max=costRangeInData[1], step=1)` bound to `barChartRanges`'s `costRange`. -/
def costRangeSlider (costs : List Int) : Control :=
  Control.intRangeSlider (costRangeInData costs)
    (costRangeInData costs).1 (costRangeInData costs).2 1

/-- Every control descriptor the notebook constructs, in source order, for a
birdstrikes dataframe `df`. -/
def notebookControls (df : DataFrame) : List Control :=
  [str1Text, textWidget, str1Text, str2Text, xSlider,
   xcolDropdown df, xcolDropdown df, costRangeSlider df.costs]

/-! ## The interaction binder (`@interact`) -/

/-- Modelled from the spec: the ipywidgets interaction binder, which is not
part of this repository.  Per the spec, a binder instance holds a callback
and the declared initial values of its controls; "on first bind, render all
controls and invoke the callback once with initial values, displaying its
result", and on every subsequent value change invoke the callback again with
the current values. -/
structure InteractBinder (α : Type) (β : Type) where
  initial : α
  callback : α → β

/-- Modelled from the spec: the sequence of outputs a binder displays, given
the sequence of control-change events after the first bind — the callback at
the initial values, then the callback at each changed value. -/
def InteractBinder.displays {α β : Type} (b : InteractBinder α β)
    (changes : List α) : List β :=
  b.callback b.initial :: changes.map b.callback

/-- Modelled from the spec: how many times the callback has been invoked
after the first bind with a given list of subsequent change events. -/
def InteractBinder.invocations {α β : Type} (b : InteractBinder α β)
    (changes : List α) : Nat :=
  (b.displays changes).length

/-- The dropdown binder of the `barChart` cell: initial value is the
dropdown's declared `value='When__Phase_of_flight'`, the callback is
`barChart` itself, registered unwrapped. -/
def barChartBinder (birdStrikesDF : DataFrame) : InteractBinder String Chart :=
  { initial := "When__Phase_of_flight", callback := barChart birdStrikesDF }

/-- The slider binder of the `times10` cell: initial value is the
`IntSlider`'s declared `value=7`, the callback is `times10` itself,
registered unwrapped. -/
def times10Binder : InteractBinder Int (List String) :=
  { initial := 7, callback := times10 }

/-- Modelled from the spec: a binder running a fallible callback over the
initial value and the subsequent change events.  Per the spec, "if the
callback raises, the error propagates to the surrounding interactive session
and rendering stops; no retry" — the first error is returned as is and no
later event is processed.  The notebook registers every callback unwrapped
(no cell of the source contains a handler), so the callback here is the
notebook callback itself. -/
def runBinder {α β ε : Type} (cb : α → Except ε β) : List α → Except ε (List β)
  | [] => Except.ok []
  | v :: rest =>
      match cb v with
      | .error e => .error e
      | .ok b => (runBinder cb rest).map (fun bs => b :: bs)

/-! ## The notebook session (frame model)

The notebook's state is the two loaded dataframes plus, to make the frame
claim expressible, the list of files written so far (the notebook writes
none).  Each callback invocation is an action on that state. -/

/-- The session state: the two dataframes loaded by `data.birdstrikes()` and
`data.iris()`, and the files written so far. -/
structure SessionState where
  birdStrikesDF : DataFrame
  irisDF : DataFrame
  filesWritten : List String

/-- What a callback invocation displays: a chart or printed lines. -/
inductive Output where
  | chart (c : Chart)
  | text (lines : List String)

/-- An invocation of one of the notebook's callbacks with its argument
values. -/
inductive NotebookAction where
  | runPrint10X (str1 : String)
  | runPrint10XPair (str1 : String) (str2 : String)
  | runTimes10 (x : Int)
  | runBarChart (xcol : String)
  | runBarChartRanges (xcol : String) (costRange : Int × Int)
  | runIrisScatter
  | runIrisBrushScatter

/-- Running one callback on the session state, translated from the body of
each callback: every body only reads the dataframes and returns a chart or
printed text; none assigns to a dataframe, a row, a column or a cell, and
none writes a file. -/
def step (s : SessionState) : NotebookAction → SessionState × Output
  | .runPrint10X str1 => (s, .text (print10X str1))
  | .runPrint10XPair str1 str2 => (s, .text (print10XPair str1 str2))
  | .runTimes10 x => (s, .text (times10 x))
  | .runBarChart xcol => (s, .chart (barChart s.birdStrikesDF xcol))
  | .runBarChartRanges xcol costRange =>
      (s, .chart (barChartRanges s.birdStrikesDF xcol costRange))
  | .runIrisScatter => (s, .chart (irisScatter s.irisDF))
  | .runIrisBrushScatter => (s, .chart (irisBrushScatter s.irisDF))

/-- The literal size a chart renders for a mark, given whether the mark is
inside the chart's selection. -/
def Chart.renderedSize (c : Chart) (selected : Bool) : Option Int :=
  c.size.bind (fun e => e.renderedValue selected)

/-! ## Helper lemmas -/

theorem foldl_min_le_init (cs : List Int) : ∀ a : Int, cs.foldl min a ≤ a := by
  induction cs with
  | nil => intro a; exact le_refl a
  | cons x xs ih =>
      intro a
      calc xs.foldl min (min a x) ≤ min a x := ih (min a x)
        _ ≤ a := min_le_left a x

theorem foldl_min_le_mem (cs : List Int) :
    ∀ a c : Int, c ∈ cs → cs.foldl min a ≤ c := by
  induction cs with
  | nil => intro a c h; cases h
  | cons x xs ih =>
      intro a c h
      rcases List.mem_cons.mp h with h1 | h2
      · subst h1
        calc xs.foldl min (min a c) ≤ min a c := foldl_min_le_init xs (min a c)
          _ ≤ c := min_le_right a c
      · exact ih (min a x) c h2

theorem le_foldl_max_init (cs : List Int) : ∀ a : Int, a ≤ cs.foldl max a := by
  induction cs with
  | nil => intro a; exact le_refl a
  | cons x xs ih =>
      intro a
      calc a ≤ max a x := le_max_left a x
        _ ≤ xs.foldl max (max a x) := ih (max a x)

theorem le_foldl_max_mem (cs : List Int) :
    ∀ a c : Int, c ∈ cs → c ≤ cs.foldl max a := by
  induction cs with
  | nil => intro a c h; cases h
  | cons x xs ih =>
      intro a c h
      rcases List.mem_cons.mp h with h1 | h2
      · subst h1
        calc c ≤ max a c := le_max_right a c
          _ ≤ xs.foldl max (max a c) := le_foldl_max_init xs (max a c)
      · exact ih (max a x) c h2

theorem seriesMin_le_mem (costs : List Int) (c : Int) (h : c ∈ costs) :
    seriesMin costs ≤ c := by
  cases costs with
  | nil => cases h
  | cons x xs =>
      rcases List.mem_cons.mp h with h1 | h2
      · subst h1; exact foldl_min_le_init xs c
      · exact foldl_min_le_mem xs x c h2

theorem le_seriesMax_mem (costs : List Int) (c : Int) (h : c ∈ costs) :
    c ≤ seriesMax costs := by
  cases costs with
  | nil => cases h
  | cons x xs =>
      rcases List.mem_cons.mp h with h1 | h2
      · subst h1; exact le_foldl_max_init xs c
      · exact le_foldl_max_mem xs x c h2

theorem seriesMin_le_seriesMax (costs : List Int) :
    seriesMin costs ≤ seriesMax costs := by
  cases costs with
  | nil => exact le_refl 0
  | cons x xs =>
      exact le_trans (foldl_min_le_init xs x) (le_foldl_max_init xs x)

theorem fdiv_1000_mul_le (a : Int) : Int.fdiv a 1000 * 1000 ≤ a := by
  rw [Int.fdiv_eq_ediv a (by norm_num)]
  omega

theorem le_ceilDiv_1000_mul (a : Int) : a ≤ ceilDiv a 1000 * 1000 := by
  unfold ceilDiv
  rw [Int.fdiv_eq_ediv (-a) (by norm_num)]
  omega

theorem fdiv_le_ceilDiv (a b : Int) (h : a ≤ b) :
    Int.fdiv a 1000 ≤ ceilDiv b 1000 := by
  unfold ceilDiv
  rw [Int.fdiv_eq_ediv a (by norm_num), Int.fdiv_eq_ediv (-b) (by norm_num)]
  omega

theorem costRangeSlider_inDomain (costs : List Int) :
    (costRangeSlider costs).inDomain = true := by
  unfold costRangeSlider Control.inDomain
  simp only [Bool.and_eq_true, decide_eq_true_eq]
  exact ⟨⟨le_refl _, fdiv_le_ceilDiv _ _ (seriesMin_le_seriesMax costs)⟩,
    le_refl _⟩

theorem initial_range_pred_holds (df : DataFrame) (row : Row)
    (h : row ∈ df.rows) :
    Pred.eval
      (Pred.and (Pred.ge costCol ((costRangeInData df.costs).1 * 1000))
                (Pred.le costCol ((costRangeInData df.costs).2 * 1000)))
      row = true := by
  have hmem : row costCol ∈ df.costs := List.mem_map_of_mem _ h
  have h1 : (costRangeInData df.costs).1 * 1000 ≤ row costCol :=
    le_trans (fdiv_1000_mul_le (seriesMin df.costs))
      (seriesMin_le_mem df.costs _ hmem)
  have h2 : row costCol ≤ (costRangeInData df.costs).2 * 1000 :=
    le_trans (le_seriesMax_mem df.costs _ hmem)
      (le_ceilDiv_1000_mul (seriesMax df.costs))
  simp [Pred.eval, h1, h2]

/-! ## Claim theorems -/

/-- C1: for every column name `xcol` drawn from the birdstrikes dataset's
column list, `barChart xcol` is a bar chart whose x encoding channel is
exactly `xcol` and whose y channel is the aggregate `count()`, so selecting
a column in the dropdown re-renders a chart whose x-channel is the selected
column name. -/
theorem barChart_x_is_selected_column (df : DataFrame) (xcol : String)
    (hx : xcol ∈ birdStrikesColumns) :
    (barChart df xcol).x = some (Encoding.field xcol) ∧
    (barChart df xcol).y = some (Encoding.field "count()") ∧
    (barChart df xcol).mark = some Mark.bar :=
  ⟨rfl, rfl, rfl⟩

/-- Witness for C1 at the dropdown's initial column. -/
theorem barChart_x_is_selected_column_witness :
    "When__Phase_of_flight" ∈ birdStrikesColumns ∧
    ((barChart { columns := birdStrikesColumns, rows := [] }
        "When__Phase_of_flight").x =
      some (Encoding.field "When__Phase_of_flight") ∧
     (barChart { columns := birdStrikesColumns, rows := [] }
        "When__Phase_of_flight").y = some (Encoding.field "count()") ∧
     (barChart { columns := birdStrikesColumns, rows := [] }
        "When__Phase_of_flight").mark = some Mark.bar) :=
  ⟨by decide,
   barChart_x_is_selected_column { columns := birdStrikesColumns, rows := [] }
     "When__Phase_of_flight" (by decide)⟩

/-- C2: for every pair of integers `(lo, hi)` supplied as the `costRange`
value and every column `xcol`, `barChartRanges xcol (lo, hi)` carries
exactly one filter transform, the conjunction
`datum[costCol] >= lo*1000 & datum[costCol] <= hi*1000`; that predicate
holds of a row iff `lo*1000 ≤ cost ≤ hi*1000` (both bounds inclusive), and
the rows the chart keeps are exactly the rows of the dataset satisfying
it. -/
theorem barChartRanges_filter_keeps_range (df : DataFrame) (xcol : String)
    (lo hi : Int) :
    (barChartRanges df xcol (lo, hi)).transforms =
      [Pred.and (Pred.ge costCol (lo * 1000)) (Pred.le costCol (hi * 1000))] ∧
    (∀ row : Row,
      Pred.eval
        (Pred.and (Pred.ge costCol (lo * 1000)) (Pred.le costCol (hi * 1000)))
        row = true ↔
      (lo * 1000 ≤ row costCol ∧ row costCol ≤ hi * 1000)) ∧
    (barChartRanges df xcol (lo, hi)).keptRows =
      df.rows.filter (fun row =>
        decide (lo * 1000 ≤ row costCol) && decide (row costCol ≤ hi * 1000)) := by
  refine ⟨rfl, ?_, rfl⟩
  intro row
  simp [Pred.eval]

/-- C3: on first bind (no change events yet) each binder invokes its
callback exactly once, with the declared initial values of its controls, and
displays exactly the callback's result there: the dropdown binder displays
`barChart 'When__Phase_of_flight'` and the slider binder displays
`times10 7`, which prints the single line `70`.  The binder itself is
ipywidgets behaviour, modelled from the spec. -/
theorem firstBind_invokes_once_with_initial_values (df : DataFrame) :
    (barChartBinder df).invocations [] = 1 ∧
    (barChartBinder df).displays [] = [barChart df "When__Phase_of_flight"] ∧
    times10Binder.invocations [] = 1 ∧
    times10Binder.displays [] = [times10 7] ∧
    times10 7 = ["70"] :=
  ⟨rfl, rfl, rfl, rfl, rfl⟩

/-- C4: every control descriptor the notebook constructs is one of the four
`Control` kinds and declares an initial value inside its declared domain;
in particular the `IntSlider`'s value 7 lies between its min 0 and max 10,
the `IntRangeSlider`'s initial pair equals its `[min, max]` endpoints, and
each `Dropdown`'s initial value is a member of its options list (the
birdstrikes column list). -/
theorem notebookControls_within_domain (df : DataFrame)
    (hcols : df.columns = birdStrikesColumns) :
    (notebookControls df).all Control.inDomain = true ∧
    xSlider = Control.intSlider 7 0 10 1 ∧
    costRangeSlider df.costs =
      Control.intRangeSlider (costRangeInData df.costs)
        (costRangeInData df.costs).1 (costRangeInData df.costs).2 1 ∧
    xcolDropdown df = Control.dropdown df.columns "When__Phase_of_flight" ∧
    "When__Phase_of_flight" ∈ df.columns := by
  have hdrop : (xcolDropdown df).inDomain = true := by
    unfold xcolDropdown Control.inDomain
    rw [hcols]
    decide
  have hrange := costRangeSlider_inDomain df.costs
  refine ⟨?_, rfl, rfl, rfl, by rw [hcols]; decide⟩
  simp only [notebookControls, List.all_cons, List.all_nil, hdrop, hrange,
    Bool.and_true, Bool.and_eq_true]
  exact ⟨rfl, rfl, rfl, rfl, by decide⟩

/-- Witness for C4 at a dataframe with the birdstrikes columns and no
rows. -/
theorem notebookControls_within_domain_witness :
    (DataFrame.mk birdStrikesColumns []).columns = birdStrikesColumns ∧
    ((notebookControls (DataFrame.mk birdStrikesColumns [])).all
        Control.inDomain = true ∧
     xSlider = Control.intSlider 7 0 10 1 ∧
     costRangeSlider (DataFrame.mk birdStrikesColumns []).costs =
       Control.intRangeSlider
         (costRangeInData (DataFrame.mk birdStrikesColumns []).costs)
         (costRangeInData (DataFrame.mk birdStrikesColumns []).costs).1
         (costRangeInData (DataFrame.mk birdStrikesColumns []).costs).2 1 ∧
     xcolDropdown (DataFrame.mk birdStrikesColumns []) =
       Control.dropdown (DataFrame.mk birdStrikesColumns []).columns
         "When__Phase_of_flight" ∧
     "When__Phase_of_flight" ∈ (DataFrame.mk birdStrikesColumns []).columns) :=
  ⟨rfl, notebookControls_within_domain (DataFrame.mk birdStrikesColumns []) rfl⟩

/-- C5: if a callback fails on a change event, the binder returns that very
error — no notebook code catches it, retries the call, translates it, or
recovers — and no later event is rendered.  The binder is ipywidgets
behaviour, modelled from the spec; the notebook registers every callback
unwrapped. -/
theorem callback_error_propagates {α β ε : Type} (cb : α → Except ε β)
    (v : α) (rest : List α) (e : ε) (h : cb v = Except.error e) :
    runBinder cb (v :: rest) = Except.error e := by
  simp [runBinder, h]

/-- Witness for C5: a callback failing on input 0 makes the binder stop with
that error even though a later event follows. -/
theorem callback_error_propagates_witness :
    ((fun n : Nat => if n = 0 then Except.error "boom" else Except.ok n) 0 =
      Except.error "boom") ∧
    runBinder
      (fun n : Nat => if n = 0 then Except.error "boom" else Except.ok n)
      [0, 1] = Except.error "boom" :=
  ⟨rfl,
   callback_error_propagates
     (fun n : Nat => if n = 0 then Except.error "boom" else Except.ok n)
     0 [1] "boom" rfl⟩

/-- C6: `irisBrushScatter` declares exactly one interval selection,
participating in exactly the x and y channels, and conditions only mark
styling on it: marks inside the brush render size 50 and marks outside
render size 1, while the x, y, color and tooltip encodings are constants
that do not reference the selection. -/
theorem irisBrushScatter_brush_styling (df : DataFrame) :
    (irisBrushScatter df).params = [{ encodings := ["x", "y"] }] ∧
    (irisBrushScatter df).size =
      some (Encoding.condValue { encodings := ["x", "y"] } 50 1) ∧
    (irisBrushScatter df).renderedSize true = some 50 ∧
    (irisBrushScatter df).renderedSize false = some 1 ∧
    (irisBrushScatter df).x = some (Encoding.field "sepalLength") ∧
    (irisBrushScatter df).y = some (Encoding.field "petalLength") ∧
    (irisBrushScatter df).color =
      some (Encoding.fieldScheme "sepalWidth" "purples") ∧
    (irisBrushScatter df).tooltip =
      [Encoding.field "sepalLength", Encoding.field "petalLength",
       Encoding.field "sepalWidth", Encoding.field "petalWidth"] ∧
    ((irisBrushScatter df).x.map Encoding.mentionsSelection = some false) ∧
    ((irisBrushScatter df).y.map Encoding.mentionsSelection = some false) ∧
    ((irisBrushScatter df).color.map Encoding.mentionsSelection = some false) ∧
    ((irisBrushScatter df).tooltip.all
        (fun e => !e.mentionsSelection) = true) :=
  ⟨rfl, rfl, rfl, rfl, rfl, rfl, rfl, rfl, rfl, rfl, rfl, rfl⟩

/-- C7: every notebook callback invocation leaves the session state
unchanged: the two loaded dataframes are never mutated and no file is ever
written. -/
theorem callbacks_read_only (s : SessionState) (a : NotebookAction) :
    (step s a).1 = s ∧
    (step s a).1.birdStrikesDF = s.birdStrikesDF ∧
    (step s a).1.irisDF = s.irisDF ∧
    (step s a).1.filesWritten = s.filesWritten := by
  cases a <;> exact ⟨rfl, rfl, rfl, rfl⟩

/-- C8: the notebook activates exactly two library-level settings — the
`vegafusion` data transformer and the `png` renderer — and no others; it
reads no environment variables and no configuration files of its own. -/
theorem notebook_two_library_settings (c : AltairConfig) :
    notebookSettings.length = 2 ∧
    notebookSettings = [LibSetting.enableDataTransformer "vegafusion",
      LibSetting.enableRenderer "png"] ∧
    (applySettings c notebookSettings).dataTransformer = "vegafusion" ∧
    (applySettings c notebookSettings).renderer = "png" ∧
    notebookEnvReads = [] ∧
    notebookConfigReads = [] :=
  ⟨rfl, rfl, rfl, rfl, rfl, rfl⟩

/-- C9: the initial cost-range filter is the identity: with the slider's
initial value `[⌊min/1000⌋, ⌈max/1000⌉]` computed from the dataset's cost
column, the filter predicate holds of every row, so the chart first
displayed by `barChartRanges` keeps exactly the same rows as the unfiltered
`barChart` over the same x column. -/
theorem initial_costRange_filter_is_identity (df : DataFrame) (xcol : String) :
    (df.rows.all (fun row =>
      Pred.eval
        (Pred.and (Pred.ge costCol ((costRangeInData df.costs).1 * 1000))
                  (Pred.le costCol ((costRangeInData df.costs).2 * 1000)))
        row) = true) ∧
    (barChartRanges df xcol (costRangeInData df.costs)).keptRows = df.rows ∧
    (barChart df xcol).keptRows = df.rows := by
  refine ⟨?_, ?_, rfl⟩
  · exact List.all_eq_true.mpr (fun row h => initial_range_pred_holds df row h)
  · show (df.rows.filter _) = df.rows
    exact List.filter_eq_self.mpr (fun row h => initial_range_pred_holds df row h)

/-- C10: the two-control callback `print10XPair s1 s2` produces exactly the
same printed output as the one-control `print10X` applied to
`s1 ++ " " ++ s2`: both print exactly 10 lines, and the i-th line (for
`i < 10`) is the input strings joined with the decimal rendering of `i` by
single spaces. -/
theorem print10XPair_eq_print10X_joined (s1 s2 : String) :
    print10XPair s1 s2 = print10X (s1 ++ " " ++ s2) ∧
    (print10XPair s1 s2).length = 10 ∧
    (print10X (s1 ++ " " ++ s2)).length = 10 ∧
    (∀ i : Nat, i < 10 →
      (print10XPair s1 s2)[i]? =
        some (s1 ++ " " ++ s2 ++ " " ++ toString i)) := by
  refine ⟨?_, rfl, rfl, ?_⟩
  · unfold print10XPair print10X
    apply List.map_congr_left
    intro i _
    simp [joinSpace, String.append_assoc]
  · intro i hi
    unfold print10XPair
    rw [List.getElem?_map, List.getElem?_range hi]
    simp [joinSpace, String.append_assoc]

/-- Witness for C10 at the controls' initial strings and line 3. -/
theorem print10XPair_eq_print10X_joined_witness :
    (print10XPair "Hello" "World!" =
      print10X ("Hello" ++ " " ++ "World!") ∧
     (print10XPair "Hello" "World!").length = 10 ∧
     (print10X ("Hello" ++ " " ++ "World!")).length = 10 ∧
     (∀ i : Nat, i < 10 →
       (print10XPair "Hello" "World!")[i]? =
         some ("Hello" ++ " " ++ "World!" ++ " " ++ toString i))) ∧
    (3 : Nat) < 10 ∧
    (print10XPair "Hello" "World!")[3]? = some "Hello World! 3" :=
  ⟨print10XPair_eq_print10X_joined "Hello" "World!",
   by decide,
   by
    have h := (print10XPair_eq_print10X_joined "Hello" "World!").2.2.2 3
      (by decide)
    simpa using h⟩

end VegaAltairNotebook
